import Mathlib

set_option maxRecDepth 8000

/-!
Shallow embedding of the `all_assess` chat-gateway repository: the request
validators, upstream dispatch and response normalisation of the several
Edge-function variants (`src/api/chat.js`, `src/scripts/app.js`,
`src/unnamed/part_000`, `src/unnamed/part_001`, and the streaming half of
`src/unnamed/part_002`), together with theorems settling the frozen claims
about the spec.
-/

/-- A JavaScript/JSON value as the handlers manipulate it.  `undefined` stands
for JavaScript `undefined` (the result of reading a missing property); the
other constructors are the JSON values `JSON.parse` can produce. -/
inductive Js where
  | undefined : Js
  | null : Js
  | bool : Bool → Js
  | num : Int → Js
  | str : String → Js
  | arr : List Js → Js
  | obj : List (String × Js) → Js

/-- JavaScript truthiness of a value. -/
def Js.truthy : Js → Bool
  | .undefined => false
  | .null => false
  | .bool b => b
  | .num n => n != 0
  | .str s => s != ""
  | .arr _ => true
  | .obj _ => true

/-- `v === null`. -/
def Js.isNull : Js → Bool
  | .null => true
  | _ => false

/-- Strict equality of a value against a string literal (`v === "s"` /
`list.includes(v)` with string elements: only a string can match). -/
def Js.eqStr : Js → String → Bool
  | .str s, t => s == t
  | _, _ => false

/-- First-match lookup of a key in an object's field list. -/
def lookupField : List (String × Js) → String → Js
  | [], _ => .undefined
  | f :: rest, k => if f.1 == k then f.2 else lookupField rest k

/-- Property read `v.k`.  Reading from a non-object yields `undefined`.
(JS would throw on `null.k`; the handlers only read properties behind
guards, so the total undefined-returning semantics agrees on every exercised path.) -/
def Js.getField : Js → String → Js
  | .obj fields, k => lookupField fields k
  | _, _ => .undefined

/-- Optional chaining `v?.k`: `null`/`undefined` short-circuit to
`undefined`. -/
def Js.optChain (v : Js) (k : String) : Js :=
  match v with
  | .undefined => .undefined
  | .null => .undefined
  | w => w.getField k

/-- JavaScript `a || b`: the first operand when truthy, else the second. -/
def Js.orJs (a b : Js) : Js := if a.truthy then a else b

mutual

/-- JavaScript string conversion `String(v)`, as used by the template
literals in the handlers' error messages. -/
def Js.display : Js → String
  | .undefined => "undefined"
  | .null => "null"
  | .bool b => if b then "true" else "false"
  | .num n => toString n
  | .str s => s
  | .arr xs => String.intercalate "," (Js.displayList xs)
  | .obj _ => "[object Object]"

/-- `String(v)` mapped over a list of values. -/
def Js.displayList : List Js → List String
  | [] => []
  | x :: xs => Js.display x :: Js.displayList xs

end

/-- `typeof v === 'object'` (true for `null`, arrays and objects). -/
def Js.isObjectType : Js → Bool
  | .null => true
  | .arr _ => true
  | .obj _ => true
  | _ => false

/-- `typeof v === 'string'`. -/
def Js.isStringType : Js → Bool
  | .str _ => true
  | _ => false

/-- The `.length` property: defined for strings and arrays, `undefined`
(here `none`) otherwise. -/
def Js.lengthProp : Js → Option Nat
  | .str s => some s.length
  | .arr xs => some xs.length
  | _ => none

/-- The body a gateway `Response` carries: empty (`new Response(null)`),
a JSON document, plain text, or a passthrough byte stream (a list of
chunks, each a list of bytes). -/
inductive Body where
  | empty : Body
  | json : Js → Body
  | text : String → Body
  | stream : List (List Nat) → Body

/-- A gateway HTTP response: status, body and headers. -/
structure Response where
  status : Nat
  body : Body
  headers : List (String × String)

/-- JS object-spread header merging `{ ...base, ...extra }`: keys of
`extra` override those of `base`. -/
def mergeHeaders (base extra : List (String × String)) : List (String × String) :=
  base.filter (fun h => !(extra.any (fun e => e.1 == h.1))) ++ extra

/-- ASCII lower-casing of a character. -/
def lowerChar (c : Char) : Char :=
  if 'A' ≤ c ∧ c ≤ 'Z' then Char.ofNat (c.toNat + 32) else c

/-- ASCII lower-casing of a string (HTTP header names compare
case-insensitively). -/
def lowerStr (s : String) : String := String.mk (s.data.map lowerChar)

/-- Whether a header list carries a given (case-insensitive) header name
with the given value. -/
def hasHeader (hs : List (String × String)) (name value : String) : Bool :=
  hs.any (fun h => lowerStr h.1 == name && h.2 == value)

/-- The observable outcome of the single upstream `fetch`: either a
settled HTTP response (status, body text, and — for the streaming
variants — the optional raw byte stream), or a thrown exception with its
`name` and `message` (an `AbortError`/`TimeoutError` on deadline expiry,
other names for transport failures). -/
inductive FetchOutcome where
  | response (status : Nat) (text : String) (bodyStream : Option (List (List Nat)))
  | thrown (name : String) (message : String)

/-- `Response.ok` of the Fetch API: status in `[200, 300)`. -/
def httpOk (status : Nat) : Bool := 200 ≤ status && status < 300

/-- An inbound gateway request: method (`none` models a missing method
string), the `content-type` header, and the request body — `none` when
`req.json()` would throw, `some v` when it parses to `v`. -/
structure Req where
  method : Option String
  contentType : Option String
  body : Option Js

/-- What a handler run produced: the HTTP response, and whether the
upstream service was contacted. -/
structure HandlerResult where
  resp : Response
  upstreamCalled : Bool

/-- Truthiness of an environment variable (`!apiKey`): missing or empty
is falsy. -/
def envTruthy : Option String → Bool
  | none => false
  | some s => s != ""

/-- Whether `pat` is a prefix of `l`. -/
def prefixOfChars : List Char → List Char → Bool
  | [], _ => true
  | _ :: _, [] => false
  | p :: ps, c :: cs => p == c && prefixOfChars ps cs

/-- Whether `pat` occurs as a contiguous sublist of `l`. -/
def containsChars : List Char → List Char → Bool
  | [], pat => prefixOfChars pat []
  | c :: rest, pat => prefixOfChars pat (c :: rest) || containsChars rest pat

/-- JS `s.includes(pat)` substring test. -/
def strIncludes (s pat : String) : Bool := containsChars s.data pat.data

/-- JS `stringOrDefault = s || d` on strings: `s` when non-empty. -/
def strOr (s d : String) : String := if s == "" then d else s

namespace Chat

/-! Embedding of `src/api/chat.js` — the strict buffered variant. -/

/-- The `corsHeaders` constant of `src/api/chat.js`. -/
def corsHeaders : List (String × String) :=
  [("access-control-allow-origin", "*"),
   ("access-control-allow-methods", "POST, GET, OPTIONS"),
   ("access-control-allow-headers", "content-type, authorization, x-requested-with")]

/-- `jsonResponse` of `src/api/chat.js`. -/
def jsonResponse (o : Js) (status : Nat) (extraHeaders : List (String × String)) : Response :=
  { status := status,
    body := .json o,
    headers := mergeHeaders
      [("content-type", "application/json; charset=utf-8"),
       ("access-control-allow-origin", "*")] extraHeaders }

/-- A `{ error: msg }` JSON body. -/
def errorBody (msg : String) : Js := .obj [("error", .str msg)]

/-- The allow-list inside `validateModel` of `src/api/chat.js`. -/
def validModels : List String :=
  ["gpt-4", "gpt-4-turbo", "gpt-4-mini", "gpt-3.5-turbo", "gpt-4o", "gpt-4.1-mini"]

/-- `validateModel` of `src/api/chat.js`: `validModels.includes(model)`
(strict equality, so only a string can match). -/
def validateModel (model : Js) : Bool :=
  validModels.any (fun m => model.eqStr m)

/-- The allowed roles checked by `validateMessages`. -/
def validRoles : List String := ["system", "user", "assistant"]

/-- The body of the indexed for-loop of `validateMessages` in
`src/api/chat.js`, checking the message at index `i`. -/
def checkMsg (i : Nat) (msg : Js) : Option String :=
  if !msg.truthy || !msg.isObjectType then
    some ("Message at index " ++ toString i ++ " must be an object")
  else if !(msg.getField "role").truthy || !(msg.getField "role").isStringType then
    some ("Message at index " ++ toString i ++ " must have a 'role' string")
  else if !(msg.getField "content").truthy || !(msg.getField "content").isStringType then
    some ("Message at index " ++ toString i ++ " must have a 'content' string")
  else if !(validRoles.any (fun r => (msg.getField "role").eqStr r)) then
    some ("Message at index " ++ toString i ++ " has invalid role '"
      ++ (msg.getField "role").display ++ "'")
  else none

/-- The indexed for-loop of `validateMessages`: first failing check wins. -/
def validateLoop : Nat → List Js → Option String
  | _, [] => none
  | i, m :: rest =>
    match checkMsg i m with
    | some e => some e
    | none => validateLoop (i + 1) rest

/-- `validateMessages` of `src/api/chat.js`.  Note: no content-length
check appears anywhere in this variant. -/
def validateMessages (messages : Js) : Option String :=
  match messages with
  | .arr msgs =>
    if msgs.length == 0 then some "Messages array cannot be empty"
    else if msgs.length > 100 then some "Too many messages (max 100)"
    else validateLoop 0 msgs
  | _ => some "Messages must be an array"

/-- The destructuring default `model = "gpt-4-mini"` of
`src/api/chat.js`: the fixed default is substituted exactly when the
`model` property is absent (`undefined`). -/
def modelOf (b : Js) : Js :=
  match b.getField "model" with
  | .undefined => Js.str "gpt-4-mini"
  | m => m

/-- The upstream-response processing shared by both dispatch paths of
`src/api/chat.js` (the Chat Completions and the Responses API blocks are
textually identical in their outcome handling): `AbortError` → 408,
other throw → 503, parse failure → 502 invalid-response, non-2xx → 502
with extracted detail, 2xx → 200 with the parsed payload.  `parse` is
the `JSON.parse` oracle for the upstream body text. -/
def fetchResult (fetch : FetchOutcome) (parse : String → Option Js) : Response :=
  match fetch with
  | .thrown name _ =>
    if name == "AbortError" then jsonResponse (errorBody "Request timeout") 408 []
    else jsonResponse (errorBody "Network error") 503 []
  | .response status text _ =>
    let responseData : Option Js := if text == "" then some Js.null else parse text
    match responseData with
    | none => jsonResponse (errorBody "Invalid response from AI service") 502 []
    | some dat =>
      if !httpOk status then
        let msgJs := (dat.optChain "error").optChain "message"
        let detail := (msgJs.orJs (.str text)).orJs (.str ("HTTP " ++ toString status))
        jsonResponse (errorBody ("AI service error: " ++ detail.display)) 502 []
      else jsonResponse dat 200 []

/-- The default handler of `src/api/chat.js`.  `now` stands for the
timestamp `new Date().toISOString()`, `fetch` for the outcome the single
upstream call would have, and `parse` for `JSON.parse` on the upstream
body text.  The result records whether the upstream was contacted. -/
def handler (req : Req) (apiKey : Option String) (now : String)
    (fetch : FetchOutcome) (parse : String → Option Js) : HandlerResult :=
  let method := req.method.getD "GET"
  if method == "OPTIONS" then
    { resp := { status := 204, body := .empty,
                headers := mergeHeaders corsHeaders [("access-control-max-age", "86400")] },
      upstreamCalled := false }
  else if method == "GET" then
    { resp := jsonResponse (.obj
        [("ok", .bool true),
         ("message", .str "Chat endpoint is operational. Use POST for requests."),
         ("timestamp", .str now)]) 200 [],
      upstreamCalled := false }
  else if method != "POST" then
    { resp := jsonResponse (errorBody "Method not allowed") 405 [], upstreamCalled := false }
  else if !(match req.contentType with
            | some ct => strIncludes ct "application/json"
            | none => false) then
    { resp := jsonResponse (errorBody "Content-Type must be application/json") 415 [],
      upstreamCalled := false }
  else if !envTruthy apiKey then
    { resp := jsonResponse (errorBody "Server configuration error") 500 [],
      upstreamCalled := false }
  else
    match req.body with
    | none =>
      { resp := jsonResponse (errorBody "Invalid JSON in request body") 400 [],
        upstreamCalled := false }
    | some parsed =>
      let body := if parsed.isNull then Js.obj [] else parsed
      let messages := body.getField "messages"
      let model := modelOf body
      let useResponsesApi := match body.getField "useResponsesApi" with
        | .undefined => Js.bool false
        | u => u
      match validateMessages messages with
      | some e =>
        { resp := jsonResponse (errorBody ("Invalid messages: " ++ e)) 400 [],
          upstreamCalled := false }
      | none =>
        if !validateModel model then
          { resp := jsonResponse (errorBody ("Unsupported model: " ++ model.display)) 400 [],
            upstreamCalled := false }
        else if !useResponsesApi.truthy then
          { resp := fetchResult fetch parse, upstreamCalled := true }
        else
          { resp := fetchResult fetch parse, upstreamCalled := true }

end Chat

namespace App

/-! Embedding of `src/scripts/app.js` — the buffered variant with the
500-character content cap and silent model substitution. -/

/-- `ALLOWED_MODELS` of `src/scripts/app.js`. -/
def ALLOWED_MODELS : List String := ["gpt-4.1-mini", "gpt-4.1", "gpt-4o-mini"]

/-- `MAX_MESSAGE_LENGTH` of `src/scripts/app.js`. -/
def MAX_MESSAGE_LENGTH : Nat := 500

/-- The outcome of `validateRequest`: the error object
`{ error, status }`, or the validated `{ messages, model }` pair (the
model already substituted). -/
inductive VResult where
  | failure (error : String) (status : Nat)
  | success (messages : List Js) (model : Js)

/-- The loop condition of `validateRequest`:
`message.content && message.content.length > MAX_MESSAGE_LENGTH`. -/
def overLong (message : Js) : Bool :=
  let content := message.getField "content"
  content.truthy &&
    (match content.lengthProp with
     | some n => n > MAX_MESSAGE_LENGTH
     | none => false)

/-- `validateRequest` of `src/scripts/app.js`: only an array check and
the content-length loop; a disallowed or absent `model` is silently
replaced by `"gpt-4.1-mini"`. -/
def validateRequest (payload : Js) : VResult :=
  let p := if payload.truthy then payload else Js.obj []
  let messages := p.getField "messages"
  let requestedModel := p.getField "model"
  match messages with
  | .arr msgs =>
    if msgs.any overLong then
      .failure ("Message content exceeds maximum length of "
        ++ toString MAX_MESSAGE_LENGTH ++ " characters") 400
    else
      let model := if ALLOWED_MODELS.any (fun m => requestedModel.eqStr m)
        then requestedModel else Js.str "gpt-4.1-mini"
      .success msgs model
  | _ => .failure "messages must be an array" 400

end App

namespace P0

/-! Embedding of `src/unnamed/part_000` — the minimal buffered variant:
no model allow-list, no message-shape checks beyond `Array.isArray`, no
timeout branch (a deadline error falls into the generic catch), and
swallowed upstream parse errors. -/

/-- The `json` helper of `src/unnamed/part_000`. -/
def json (o : Js) (status : Nat) : Response :=
  { status := status,
    body := .json o,
    headers := [("content-type", "application/json; charset=utf-8"),
                ("access-control-allow-origin", "*")] }

/-- A `{ error: msg }` JSON body. -/
def errorBody (msg : String) : Js := .obj [("error", .str msg)]

/-- The upstream-response processing of `src/unnamed/part_000` (shared
by its two dispatch paths): parse failures are swallowed
(`try { data = ... } catch {}` leaves `data = null`), a thrown fetch
error reaches the outer catch as a 500, and a 2xx returns whatever
`data` holds — `null` when the body text was unparseable or empty. -/
def fetchResult (fetch : FetchOutcome) (parse : String → Option Js) : Response :=
  match fetch with
  | .thrown _ msg => json (errorBody (strOr msg "Unknown server error")) 500
  | .response status text _ =>
    let dat := if text == "" then Js.null else (parse text).getD Js.null
    if !httpOk status then
      let msgJs := (dat.optChain "error").optChain "message"
      let detail := (msgJs.orJs (.str text)).orJs (.str ("Upstream HTTP " ++ toString status))
      json (errorBody ("OpenAI error: " ++ detail.display)) 502
    else json dat 200

/-- The default handler of `src/unnamed/part_000`. -/
def handler (req : Req) (apiKey : Option String)
    (fetch : FetchOutcome) (parse : String → Option Js) : HandlerResult :=
  let method := req.method.getD "GET"
  if method == "OPTIONS" then
    { resp := { status := 204, body := .empty,
                headers := [("access-control-allow-origin", "*"),
                            ("access-control-allow-methods", "POST, GET, OPTIONS"),
                            ("access-control-allow-headers", "content-type, authorization"),
                            ("access-control-max-age", "86400")] },
      upstreamCalled := false }
  else if method == "GET" then
    { resp := json (.obj [("ok", .bool true),
        ("message", .str "chat endpoint is live. use POST.")]) 200,
      upstreamCalled := false }
  else if method != "POST" then
    { resp := json (errorBody "Method not allowed") 405, upstreamCalled := false }
  else if !envTruthy apiKey then
    { resp := json (errorBody "OPENAI_API_KEY is not set") 500, upstreamCalled := false }
  else
    match req.body with
    | none =>
      { resp := json (errorBody "Invalid JSON body") 400, upstreamCalled := false }
    | some parsed =>
      let body := if parsed.isNull then Js.obj [] else parsed
      let messages := body.getField "messages"
      match messages with
      | .arr _ =>
        { resp := fetchResult fetch parse, upstreamCalled := true }
      | _ =>
        { resp := json (errorBody
            "messages must be an array of Chat Completions-style messages") 400,
          upstreamCalled := false }

end P0

namespace P1

/-! Embedding of `src/unnamed/part_001` — the streaming variant with the
`response` text/JSON helper and no timeout branch: every thrown fetch
error, a deadline `TimeoutError` included, reaches the outer catch and
becomes a 500. -/

/-- The `response` helper of `src/unnamed/part_001`:
`typeof body === 'object' && body !== null` selects JSON, otherwise the
body is `String(body || '')` as plain text. -/
def response (body : Js) (status : Nat) (extraHeaders : List (String × String)) : Response :=
  let isJson := body.isObjectType && !body.isNull
  { status := status,
    body := if isJson then .json body
            else .text (if body.truthy then body.display else ""),
    headers := mergeHeaders
      [("Content-Type", if isJson then "application/json" else "text/plain"),
       ("Access-Control-Allow-Origin", "*")] extraHeaders }

/-- A `{ error: msg }` JSON body. -/
def errorBody (msg : String) : Js := .obj [("error", .str msg)]

/-- The upstream-outcome processing of `src/unnamed/part_001`: a thrown
fetch error reaches the outer catch (500 with the error's message); a
non-ok or body-less response yields the 502 error path with detail
extracted from the error text; an ok response with a body is relayed
unchanged as a 200 `text/event-stream`. -/
def fetchResult (fetch : FetchOutcome) (parse : String → Option Js) : Response :=
  match fetch with
  | .thrown _ msg =>
    response (errorBody (strOr msg "Unknown server error during request processing")) 500 []
  | .response status text bodyStream =>
    if !httpOk status || bodyStream.isNone then
      let dat := if text == "" then Js.obj [("message", .str "Unknown upstream error.")]
        else match parse text with
          | some d => d
          | none => Js.obj [("message", .str "Error parsing OpenAI error response.")]
      let detail := (((dat.getField "error").optChain "message").orJs
        (dat.getField "message")).orJs (.str ("Upstream HTTP " ++ toString status))
      response (errorBody ("OpenAI error: " ++ detail.display)) 502 []
    else
      { status := 200,
        body := .stream (bodyStream.getD []),
        headers := [("Content-Type", "text/event-stream"),
                    ("Cache-Control", "no-cache, no-transform"),
                    ("Connection", "keep-alive"),
                    ("Access-Control-Allow-Origin", "*")] }

/-- The default handler of `src/unnamed/part_001`. -/
def handler (req : Req) (apiKey : Option String)
    (fetch : FetchOutcome) (parse : String → Option Js) : HandlerResult :=
  let method := strOr (req.method.getD "") "GET"
  if method == "OPTIONS" then
    { resp := response Js.null 204
        [("Access-Control-Allow-Methods", "POST, GET, OPTIONS"),
         ("Access-Control-Allow-Headers", "content-type, authorization, accept"),
         ("Access-Control-Allow-Origin", "*")],
      upstreamCalled := false }
  else if method == "GET" then
    { resp := response (.obj [("ok", .bool true),
        ("message", .str "Chat streaming endpoint is live. Use POST.")]) 200 [],
      upstreamCalled := false }
  else if method != "POST" then
    { resp := response (errorBody "Method not allowed") 405 [], upstreamCalled := false }
  else if !envTruthy apiKey then
    { resp := response (errorBody
        "OPENAI_API_KEY is not set in Vercel environment variables") 500 [],
      upstreamCalled := false }
  else
    match req.body with
    | none =>
      { resp := response (errorBody "Invalid JSON body") 400 [], upstreamCalled := false }
    | some payload =>
      let messages := (if payload.truthy then payload else Js.obj []).getField "messages"
      match messages with
      | .arr msgs =>
        if msgs.length == 0 then
          { resp := response (errorBody "messages must be a non-empty array") 400 [],
            upstreamCalled := false }
        else
          { resp := fetchResult fetch parse, upstreamCalled := true }
      | _ =>
        { resp := response (errorBody "messages must be a non-empty array") 400 [],
          upstreamCalled := false }

end P1

namespace P2

/-! Embedding of the second (streaming) handler of
`src/unnamed/part_002`: the 500-character cap, silent model
substitution towards `"gpt-3.5-turbo"`, a 60-second deadline whose
`TimeoutError`/`AbortError` is mapped to 408, and raw stream
passthrough on success. -/

/-- `ALLOWED_MODELS` of the streaming handler of `src/unnamed/part_002`. -/
def ALLOWED_MODELS : List String := ["gpt-4o", "gpt-4-turbo", "gpt-3.5-turbo"]

/-- `MAX_MESSAGE_LENGTH` of `src/unnamed/part_002`. -/
def MAX_MESSAGE_LENGTH : Nat := 500

/-- `createJsonResponse` of `src/unnamed/part_002`. -/
def createJsonResponse (o : Js) (status : Nat) : Response :=
  { status := status,
    body := .json o,
    headers := [("content-type", "application/json; charset=utf-8"),
                ("access-control-allow-origin", "*")] }

/-- `handleError` of `src/unnamed/part_002`: a
`{ error, timestamp }` JSON body at the given status. -/
def handleError (msg : String) (status : Nat) (now : String) : Response :=
  createJsonResponse (.obj [("error", .str msg), ("timestamp", .str now)]) status

/-- The loop condition of `validateRequest`:
`message.content && message.content.length > MAX_MESSAGE_LENGTH`. -/
def overLong (message : Js) : Bool :=
  let content := message.getField "content"
  content.truthy &&
    (match content.lengthProp with
     | some n => n > MAX_MESSAGE_LENGTH
     | none => false)

/-- The outcome of `validateRequest` of `src/unnamed/part_002`. -/
inductive VResult where
  | failure (error : String) (status : Nat)
  | success (messages : List Js) (model : Js)

/-- `validateRequest` of the streaming handler of
`src/unnamed/part_002`: non-empty array check and the content-length
loop; no message-count cap; a disallowed or absent model is silently
replaced by `"gpt-3.5-turbo"`. -/
def validateRequest (payload : Js) : VResult :=
  let p := if payload.truthy then payload else Js.obj []
  let messages := p.getField "messages"
  let requestedModel := p.getField "model"
  match messages with
  | .arr msgs =>
    if msgs.length == 0 then .failure "messages must be a non-empty array" 400
    else if msgs.any overLong then
      .failure ("Message content exceeds maximum length of "
        ++ toString MAX_MESSAGE_LENGTH ++ " characters") 400
    else
      let model := if ALLOWED_MODELS.any (fun m => requestedModel.eqStr m)
        then requestedModel else Js.str "gpt-3.5-turbo"
      .success msgs model
  | _ => .failure "messages must be a non-empty array" 400

/-- The upstream-outcome processing of the streaming handler of
`src/unnamed/part_002`: `TimeoutError`/`AbortError` → 408
"Request timeout", any other thrown error → 500; a non-ok or body-less
response → 502 with extracted detail; an ok response with a body is
relayed unchanged as a 200 `text/event-stream`. -/
def fetchResult (fetch : FetchOutcome) (parse : String → Option Js) (now : String) : Response :=
  match fetch with
  | .thrown name msg =>
    if name == "TimeoutError" || name == "AbortError" then
      handleError "Request timeout" 408 now
    else handleError (strOr msg "Unknown server error") 500 now
  | .response status text bodyStream =>
    if !httpOk status || bodyStream.isNone then
      let dat := if text == "" then Js.null else (parse text).getD Js.null
      let msgJs := (dat.optChain "error").optChain "message"
      let detail := (msgJs.orJs (.str text)).orJs (.str ("Upstream HTTP " ++ toString status))
      handleError ("OpenAI error: " ++ detail.display) 502 now
    else
      { status := 200,
        body := .stream (bodyStream.getD []),
        headers := [("Content-Type", "text/event-stream"),
                    ("Cache-Control", "no-cache, no-transform"),
                    ("Connection", "keep-alive"),
                    ("Access-Control-Allow-Origin", "*")] }

/-- The default (streaming) handler of `src/unnamed/part_002`. -/
def handler (req : Req) (apiKey : Option String) (now : String)
    (fetch : FetchOutcome) (parse : String → Option Js) : HandlerResult :=
  let method := strOr (req.method.getD "") "GET"
  if method == "OPTIONS" then
    { resp := { status := 204, body := .empty,
                headers := [("access-control-allow-origin", "*"),
                            ("access-control-allow-methods", "POST, GET, OPTIONS, DELETE"),
                            ("access-control-allow-headers",
                              "content-type, authorization, x-requested-with"),
                            ("access-control-max-age", "86400")] },
      upstreamCalled := false }
  else if method == "GET" then
    { resp := createJsonResponse (.obj
        [("ok", .bool true),
         ("message", .str "chat endpoint is live and supports streaming. use POST."),
         ("timestamp", .str now),
         ("features", .obj
           [("allowed_models", .arr (ALLOWED_MODELS.map Js.str)),
            ("max_message_length", .num 500),
            ("timeout", .num 60000)])]) 200,
      upstreamCalled := false }
  else if method != "POST" then
    { resp := createJsonResponse (.obj [("error", .str "Method not allowed")]) 405,
      upstreamCalled := false }
  else if !envTruthy apiKey then
    { resp := handleError "OPENAI_API_KEY is not set" 500 now, upstreamCalled := false }
  else
    match req.body with
    | none =>
      { resp := handleError "Invalid JSON body" 400 now, upstreamCalled := false }
    | some payload =>
      match validateRequest payload with
      | .failure e s => { resp := handleError e s now, upstreamCalled := false }
      | .success _ _ => { resp := fetchResult fetch parse now, upstreamCalled := true }

end P2

/-- A well-formed user message with the given content, used as a concrete
test input. -/
def msgUser (content : String) : Js := .obj [("role", .str "user"), ("content", .str content)]

/-- A 501-character content string, one character over the 500-character
cap of the permissive variants. -/
def longContent : String := String.mk (List.replicate 501 'a')

/-- A `JSON.parse` oracle under which no upstream body text parses. -/
def noParse : String → Option Js := fun _ => none

theorem chat_jsonResponse_cors (o : Js) (status : Nat) :
    hasHeader (Chat.jsonResponse o status []).headers "access-control-allow-origin" "*" = true :=
  rfl

theorem chat_fetchResult_cors (fetch : FetchOutcome) (parse : String → Option Js) :
    hasHeader (Chat.fetchResult fetch parse).headers "access-control-allow-origin" "*" = true := by
  rcases fetch with ⟨status, text, bs⟩ | ⟨name, msg⟩
  all_goals simp only [Chat.fetchResult]
  all_goals repeat' split
  all_goals exact chat_jsonResponse_cors _ _

theorem p0_json_cors (o : Js) (status : Nat) :
    hasHeader (P0.json o status).headers "access-control-allow-origin" "*" = true :=
  rfl

theorem p0_fetchResult_cors (fetch : FetchOutcome) (parse : String → Option Js) :
    hasHeader (P0.fetchResult fetch parse).headers "access-control-allow-origin" "*" = true := by
  rcases fetch with ⟨status, text, bs⟩ | ⟨name, msg⟩
  all_goals simp only [P0.fetchResult]
  all_goals repeat' split
  all_goals exact p0_json_cors _ _

theorem p1_response_cors (o : Js) (status : Nat) :
    hasHeader (P1.response o status []).headers "access-control-allow-origin" "*" = true := by
  unfold P1.response
  repeat' split
  all_goals rfl

theorem p1_fetchResult_cors (fetch : FetchOutcome) (parse : String → Option Js) :
    hasHeader (P1.fetchResult fetch parse).headers "access-control-allow-origin" "*" = true := by
  rcases fetch with ⟨status, text, bs⟩ | ⟨name, msg⟩
  all_goals simp only [P1.fetchResult]
  all_goals repeat' split
  all_goals first
    | exact p1_response_cors _ _
    | rfl

theorem p2_handleError_cors (msg : String) (status : Nat) (now : String) :
    hasHeader (P2.handleError msg status now).headers "access-control-allow-origin" "*" = true :=
  rfl

theorem p2_fetchResult_cors (fetch : FetchOutcome) (parse : String → Option Js) (now : String) :
    hasHeader (P2.fetchResult fetch parse now).headers "access-control-allow-origin" "*" = true := by
  rcases fetch with ⟨status, text, bs⟩ | ⟨name, msg⟩
  all_goals simp only [P2.fetchResult]
  all_goals repeat' split
  all_goals first
    | exact p2_handleError_cors _ _ _
    | rfl

/-- C8: every response of every variant handler — preflight, health
check, success, streaming success, or any error status, on any method,
environment and upstream outcome — carries the header
`access-control-allow-origin: *`. -/
theorem C8_cors_always (req : Req) (key : Option String) (now : String)
    (fetch : FetchOutcome) (parse : String → Option Js) :
    hasHeader (Chat.handler req key now fetch parse).resp.headers
        "access-control-allow-origin" "*" = true ∧
    hasHeader (P0.handler req key fetch parse).resp.headers
        "access-control-allow-origin" "*" = true ∧
    hasHeader (P1.handler req key fetch parse).resp.headers
        "access-control-allow-origin" "*" = true ∧
    hasHeader (P2.handler req key now fetch parse).resp.headers
        "access-control-allow-origin" "*" = true := by
  obtain ⟨m, c, b⟩ := req
  refine ⟨?_, ?_, ?_, ?_⟩
  · simp only [Chat.handler]
    repeat' split
    all_goals first
      | exact chat_fetchResult_cors fetch parse
      | exact chat_jsonResponse_cors _ _
      | rfl
  · simp only [P0.handler]
    repeat' split
    all_goals first
      | exact p0_fetchResult_cors fetch parse
      | exact p0_json_cors _ _
      | rfl
  · simp only [P1.handler]
    repeat' split
    all_goals first
      | exact p1_fetchResult_cors fetch parse
      | exact p1_response_cors _ _
      | rfl
  · simp only [P2.handler]
    repeat' split
    all_goals first
      | exact p2_fetchResult_cors fetch parse now
      | exact p2_handleError_cors _ _ _
      | rfl

theorem chat_handler_post (ct : String) (b : Js) (key : Option String) (now : String)
    (fetch : FetchOutcome) (parse : String → Option Js)
    (hct : strIncludes ct "application/json" = true)
    (hk : envTruthy key = true) (hnn : b.isNull = false) :
    Chat.handler ⟨some "POST", some ct, some b⟩ key now fetch parse =
      match Chat.validateMessages (b.getField "messages") with
      | some e =>
        ⟨Chat.jsonResponse (Chat.errorBody ("Invalid messages: " ++ e)) 400 [], false⟩
      | none =>
        if Chat.validateModel (Chat.modelOf b) = false then
          ⟨Chat.jsonResponse
            (Chat.errorBody ("Unsupported model: " ++ (Chat.modelOf b).display)) 400 [], false⟩
        else ⟨Chat.fetchResult fetch parse, true⟩ := by
  simp only [Chat.handler, Option.getD_some]
  simp only [hct, hk, hnn]
  rcases h : Chat.validateMessages (b.getField "messages") with _ | e
  · rcases hv : Chat.validateModel (Chat.modelOf b) with _ | _ <;> simp [h, hv]
  · simp [h]

/-- C7 counterexample: the content-type check of `src/api/chat.js` runs
before the credential check, so a `POST` with content-type `text/plain`
and no credential configured is answered 415, not 500, refuting the
claim that every `POST` without a credential gets a 500. -/
theorem C7_counterexample :
    (Chat.handler ⟨some "POST", some "text/plain", none⟩ none "t" (.thrown "X" "x")
        noParse).resp.status = 415 ∧
    ((Chat.handler ⟨some "POST", some "text/plain", none⟩ none "t" (.thrown "X" "x")
        noParse).resp.status = 500 → False) ∧
    (Chat.handler ⟨some "POST", some "text/plain", none⟩ none "t" (.thrown "X" "x")
        noParse).upstreamCalled = false :=
  ⟨rfl, by decide, rfl⟩

/-- C7 (amended): on a `POST` whose content-type includes
`application/json`, when no upstream credential is configured the
`src/api/chat.js` handler answers a structured 500 JSON error and never
contacts the upstream, whatever the request body and upstream behaviour;
a `POST` with a non-JSON content-type is instead answered 415 even when
the credential is missing. -/
theorem C7_missing_credential (ct : String) (b : Option Js) (key : Option String)
    (now : String) (fetch : FetchOutcome) (parse : String → Option Js)
    (hct : strIncludes ct "application/json" = true)
    (hk : envTruthy key = false) :
    Chat.handler ⟨some "POST", some ct, b⟩ key now fetch parse =
      ⟨Chat.jsonResponse (Chat.errorBody "Server configuration error") 500 [], false⟩ := by
  unfold Chat.handler
  simp [hct, hk]

/-- C7 witness: the missing-credential theorem instantiated at a
concrete request. -/
theorem C7_witness :
    strIncludes "application/json" "application/json" = true ∧
    envTruthy none = false ∧
    Chat.handler ⟨some "POST", some "application/json",
        some (Js.obj [("messages", .arr [msgUser "hi"])])⟩ none "t" (.thrown "X" "x") noParse =
      ⟨Chat.jsonResponse (Chat.errorBody "Server configuration error") 500 [], false⟩ :=
  ⟨rfl, rfl, C7_missing_credential _ _ _ _ _ _ rfl rfl⟩

/-- C1 counterexample: `validateRequest` of `src/scripts/app.js`, given a
`POST` body whose `model` field `"gpt-4"` is not in that variant's
allow-list, does not fail — it silently substitutes the default model
`"gpt-4.1-mini"`, contradicting the claim that validation fails and the
model is never silently replaced. -/
theorem C1_counterexample :
    App.validateRequest (.obj [("messages", .arr [msgUser "hi"]), ("model", .str "gpt-4")])
      = App.VResult.success [msgUser "hi"] (Js.str "gpt-4.1-mini") := by
  rfl

/-- C1 (amended): in the strict variant `src/api/chat.js`, a `POST`
whose `model` is present and not in the allow-list is answered with 400
`Unsupported model` and no upstream call, and the model is not
substituted. -/
theorem C1_strict_rejects (ct : String) (b : Js) (m : String)
    (key : Option String) (now : String) (fetch : FetchOutcome) (parse : String → Option Js)
    (hct : strIncludes ct "application/json" = true)
    (hk : envTruthy key = true)
    (hnn : b.isNull = false)
    (hmsg : Chat.validateMessages (b.getField "messages") = none)
    (hm : b.getField "model" = Js.str m)
    (hmod : Chat.validateModel (Js.str m) = false) :
    Chat.handler ⟨some "POST", some ct, some b⟩ key now fetch parse =
      ⟨Chat.jsonResponse (Chat.errorBody ("Unsupported model: " ++ m)) 400 [], false⟩ := by
  rw [chat_handler_post ct b key now fetch parse hct hk hnn]
  have hmo : Chat.modelOf b = Js.str m := by rw [Chat.modelOf, hm]
  simp [hmsg, hmo, hmod, Js.display]

/-- C1 witness: the strict-rejection theorem instantiated at a concrete
request carrying the disallowed model `"o3"`. -/
theorem C1_witness :
    strIncludes "application/json" "application/json" = true ∧
    envTruthy (some "k") = true ∧
    (Js.obj [("messages", .arr [msgUser "hi"]), ("model", .str "o3")]).isNull = false ∧
    Chat.validateMessages
      ((Js.obj [("messages", .arr [msgUser "hi"]), ("model", .str "o3")]).getField "messages")
      = none ∧
    (Js.obj [("messages", .arr [msgUser "hi"]), ("model", .str "o3")]).getField "model"
      = Js.str "o3" ∧
    Chat.validateModel (Js.str "o3") = false ∧
    Chat.handler ⟨some "POST", some "application/json",
        some (Js.obj [("messages", .arr [msgUser "hi"]), ("model", .str "o3")])⟩
        (some "k") "t" (.thrown "X" "x") noParse =
      ⟨Chat.jsonResponse (Chat.errorBody ("Unsupported model: " ++ "o3")) 400 [], false⟩ :=
  ⟨rfl, rfl, rfl, rfl, rfl, rfl,
    C1_strict_rejects _ _ _ _ _ _ _ rfl rfl rfl rfl rfl rfl⟩

/-- C9: a `POST` whose message has the empty string as `content` is
rejected by `src/api/chat.js` with 400 and the message "... must have a
'content' string" — empty content is treated like missing content —
for every role string, and no upstream call occurs. -/
theorem C9_empty_content_rejected (r ct now : String) (key : Option String)
    (fetch : FetchOutcome) (parse : String → Option Js)
    (hr : r ≠ "")
    (hct : strIncludes ct "application/json" = true)
    (hk : envTruthy key = true) :
    Chat.handler ⟨some "POST", some ct,
        some (Js.obj [("messages", .arr [.obj [("role", .str r), ("content", .str "")]])])⟩
        key now fetch parse =
      ⟨Chat.jsonResponse (Chat.errorBody
          "Invalid messages: Message at index 0 must have a 'content' string") 400 [], false⟩ := by
  rw [chat_handler_post ct
    (Js.obj [("messages", .arr [.obj [("role", .str r), ("content", .str "")]])])
    key now fetch parse hct hk rfl]
  have hv : Chat.validateMessages
      ((Js.obj [("messages", .arr [.obj [("role", .str r), ("content", .str "")]])]).getField
        "messages")
      = some "Message at index 0 must have a 'content' string" := by
    simp [Chat.validateMessages, Chat.validateLoop, Chat.checkMsg, Js.getField, lookupField,
      Js.truthy, Js.isObjectType, Js.isStringType, hr]
    rfl
  simp [hv]

/-- C9 witness: the empty-content rejection instantiated at a concrete
request with role `"user"`. -/
theorem C9_witness :
    ("user" : String) ≠ "" ∧
    strIncludes "application/json" "application/json" = true ∧
    envTruthy (some "k") = true ∧
    Chat.handler ⟨some "POST", some "application/json",
        some (Js.obj [("messages", .arr [.obj [("role", .str "user"), ("content", .str "")]])])⟩
        (some "k") "t" (.thrown "X" "x") noParse =
      ⟨Chat.jsonResponse (Chat.errorBody
          "Invalid messages: Message at index 0 must have a 'content' string") 400 [], false⟩ :=
  ⟨by decide, rfl, rfl, C9_empty_content_rejected _ _ _ _ _ _ (by decide) rfl rfl⟩

/-- C10: the fixed default model `"gpt-4-mini"` of `src/api/chat.js` is
itself in the allow-list, so a `POST` that omits `model` (with otherwise
valid messages) is never rejected as unsupported — the handler proceeds
to the upstream call. -/
theorem C10_default_model_allowed (ct now : String) (key : Option String) (b : Js)
    (fetch : FetchOutcome) (parse : String → Option Js)
    (hct : strIncludes ct "application/json" = true)
    (hk : envTruthy key = true)
    (hnn : b.isNull = false)
    (hmsg : Chat.validateMessages (b.getField "messages") = none)
    (hm : b.getField "model" = Js.undefined) :
    Chat.validateModel (Js.str "gpt-4-mini") = true ∧
    (Chat.handler ⟨some "POST", some ct, some b⟩ key now fetch parse).upstreamCalled
      = true := by
  refine ⟨by decide, ?_⟩
  rw [chat_handler_post ct b key now fetch parse hct hk hnn]
  have hmo : Chat.modelOf b = Js.str "gpt-4-mini" := by rw [Chat.modelOf, hm]
  simp [hmsg, hmo, Chat.validateModel, Js.eqStr, Chat.validModels]

/-- C10 witness: the default-model theorem instantiated at a concrete
request that omits `model`. -/
theorem C10_witness :
    strIncludes "application/json" "application/json" = true ∧
    envTruthy (some "k") = true ∧
    (Js.obj [("messages", .arr [msgUser "hi"])]).isNull = false ∧
    Chat.validateMessages
      ((Js.obj [("messages", .arr [msgUser "hi"])]).getField "messages") = none ∧
    (Js.obj [("messages", .arr [msgUser "hi"])]).getField "model" = Js.undefined ∧
    (Chat.validateModel (Js.str "gpt-4-mini") = true ∧
      (Chat.handler ⟨some "POST", some "application/json",
          some (Js.obj [("messages", .arr [msgUser "hi"])])⟩
          (some "k") "t" (.thrown "X" "x") noParse).upstreamCalled = true) :=
  ⟨rfl, rfl, rfl, rfl, rfl,
    C10_default_model_allowed _ _ _ _ _ _ rfl rfl rfl rfl rfl⟩

/-- C2: in streaming mode, for every upstream success the gateway
responds 200 `text/event-stream` whose body is exactly the upstream
chunk list, unchanged — the relay is the identity on the stream — in
both streaming variants (`src/unnamed/part_001` and the streaming
handler of `src/unnamed/part_002`). -/
theorem C2_streaming_passthrough (utext now : String) (key : Option String)
    (m0 : Js) (rest : List Js) (chunks : List (List Nat)) (status : Nat)
    (parse : String → Option Js)
    (hk : envTruthy key = true)
    (hok : httpOk status = true)
    (hol : (m0 :: rest).any P2.overLong = false) :
    P1.handler ⟨some "POST", none, some (Js.obj [("messages", .arr (m0 :: rest))])⟩
        key (.response status utext (some chunks)) parse =
      ⟨{ status := 200, body := .stream chunks,
         headers := [("Content-Type", "text/event-stream"),
                     ("Cache-Control", "no-cache, no-transform"),
                     ("Connection", "keep-alive"),
                     ("Access-Control-Allow-Origin", "*")] }, true⟩ ∧
    P2.handler ⟨some "POST", none, some (Js.obj [("messages", .arr (m0 :: rest))])⟩
        key now (.response status utext (some chunks)) parse =
      ⟨{ status := 200, body := .stream chunks,
         headers := [("Content-Type", "text/event-stream"),
                     ("Cache-Control", "no-cache, no-transform"),
                     ("Connection", "keep-alive"),
                     ("Access-Control-Allow-Origin", "*")] }, true⟩ := by
  constructor
  · simp only [P1.handler, P1.fetchResult, Option.getD_some]
    simp [hk, hok, strOr, Js.truthy, Js.getField, lookupField]
  · simp only [P2.handler, P2.fetchResult, P2.validateRequest, Option.getD_some]
    simp [hk, hok, hol, strOr, Js.truthy, Js.getField, lookupField]

/-- C2 witness: the passthrough theorem instantiated at a concrete
two-chunk upstream stream. -/
theorem C2_witness :
    envTruthy (some "k") = true ∧
    httpOk 200 = true ∧
    ([msgUser "hi"].any P2.overLong = false) ∧
    (P1.handler ⟨some "POST", none, some (Js.obj [("messages", .arr [msgUser "hi"])])⟩
        (some "k") (.response 200 "" (some [[100], [101, 102]])) noParse =
      ⟨{ status := 200, body := .stream [[100], [101, 102]],
         headers := [("Content-Type", "text/event-stream"),
                     ("Cache-Control", "no-cache, no-transform"),
                     ("Connection", "keep-alive"),
                     ("Access-Control-Allow-Origin", "*")] }, true⟩ ∧
    P2.handler ⟨some "POST", none, some (Js.obj [("messages", .arr [msgUser "hi"])])⟩
        (some "k") "t" (.response 200 "" (some [[100], [101, 102]])) noParse =
      ⟨{ status := 200, body := .stream [[100], [101, 102]],
         headers := [("Content-Type", "text/event-stream"),
                     ("Cache-Control", "no-cache, no-transform"),
                     ("Connection", "keep-alive"),
                     ("Access-Control-Allow-Origin", "*")] }, true⟩) :=
  ⟨rfl, rfl, rfl, C2_streaming_passthrough _ _ _ _ _ _ _ _ rfl rfl rfl⟩

/-- C3 counterexample: in `src/unnamed/part_001` a deadline expiry
(`TimeoutError` thrown by the aborted fetch) is not mapped to 408 — it
falls into the generic catch and the handler answers 500, refuting the
claim that a timeout always yields 408 and never a 500. -/
theorem C3_counterexample :
    (P1.handler ⟨some "POST", none, some (Js.obj [("messages", .arr [msgUser "hi"])])⟩
        (some "k") (.thrown "TimeoutError" "The operation was aborted due to timeout")
        noParse).resp.status = 500 ∧
    ((P1.handler ⟨some "POST", none, some (Js.obj [("messages", .arr [msgUser "hi"])])⟩
        (some "k") (.thrown "TimeoutError" "The operation was aborted due to timeout")
        noParse).resp.status = 408 → False) :=
  ⟨rfl, by decide⟩

/-- C3 (amended): in the variants that handle the deadline —
`src/api/chat.js` (`AbortError`) and the streaming handler of
`src/unnamed/part_002` (`TimeoutError`/`AbortError`) — a deadline expiry
on a dispatched request is answered with 408 and the error
"Request timeout". -/
theorem C3_timeout_408_where_handled (ct emsg now : String) (key : Option String)
    (msgs : List Js) (name : String) (parse : String → Option Js)
    (hct : strIncludes ct "application/json" = true)
    (hk : envTruthy key = true)
    (hch : Chat.validateMessages (.arr msgs) = none)
    (hne : (msgs.length == 0) = false)
    (hol : msgs.any P2.overLong = false)
    (hname : name = "TimeoutError" ∨ name = "AbortError") :
    Chat.handler ⟨some "POST", some ct, some (Js.obj [("messages", Js.arr msgs)])⟩ key now
        (.thrown "AbortError" emsg) parse =
      ⟨Chat.jsonResponse (Chat.errorBody "Request timeout") 408 [], true⟩ ∧
    P2.handler ⟨some "POST", some ct, some (Js.obj [("messages", Js.arr msgs)])⟩ key now
        (.thrown name emsg) parse =
      ⟨P2.handleError "Request timeout" 408 now, true⟩ := by
  constructor
  · rw [chat_handler_post ct (Js.obj [("messages", Js.arr msgs)]) key now _ parse hct hk rfl]
    have hv : (Js.obj [("messages", Js.arr msgs)]).getField "messages" = Js.arr msgs := rfl
    rw [hv, hch]
    have hmo : Chat.modelOf (Js.obj [("messages", Js.arr msgs)]) = Js.str "gpt-4-mini" := rfl
    simp [hmo, Chat.validateModel, Js.eqStr, Chat.validModels, Chat.fetchResult]
  · simp only [P2.handler, P2.fetchResult, P2.validateRequest, Option.getD_some]
    rcases hname with h | h <;>
      simp [h, hk, hne, hol, strOr, Js.truthy, Js.getField, lookupField]

/-- C3 witness: the amended timeout theorem instantiated at a concrete
single-message request. -/
theorem C3_witness :
    strIncludes "application/json" "application/json" = true ∧
    envTruthy (some "k") = true ∧
    Chat.validateMessages (.arr [msgUser "hi"]) = none ∧
    (([msgUser "hi"] : List Js).length == 0) = false ∧
    ([msgUser "hi"].any P2.overLong = false) ∧
    (("TimeoutError" : String) = "TimeoutError" ∨ ("TimeoutError" : String) = "AbortError") ∧
    (Chat.handler ⟨some "POST", some "application/json",
        some (Js.obj [("messages", Js.arr [msgUser "hi"])])⟩ (some "k") "t"
        (.thrown "AbortError" "aborted") noParse =
      ⟨Chat.jsonResponse (Chat.errorBody "Request timeout") 408 [], true⟩ ∧
    P2.handler ⟨some "POST", some "application/json",
        some (Js.obj [("messages", Js.arr [msgUser "hi"])])⟩ (some "k") "t"
        (.thrown "TimeoutError" "aborted") noParse =
      ⟨P2.handleError "Request timeout" 408 "t", true⟩) :=
  ⟨rfl, rfl, rfl, rfl, rfl, Or.inl rfl,
    C3_timeout_408_where_handled _ _ _ _ _ _ _ rfl rfl rfl rfl rfl (Or.inl rfl)⟩

/-- C4 counterexample: the strict variant `src/api/chat.js` enforces no
content-length cap at all — a message whose content is 501 characters
passes `validateMessages` and the request reaches the upstream, refuting
the claim that over-long content is rejected with a 400
`InvalidMessages` error. -/
theorem C4_counterexample :
    500 < longContent.length ∧
    Chat.validateMessages (.arr [msgUser longContent]) = none ∧
    (Chat.handler ⟨some "POST", some "application/json",
        some (Js.obj [("messages", .arr [msgUser longContent])])⟩
        (some "k") "t" (.thrown "X" "x") noParse).upstreamCalled = true :=
  ⟨by decide, rfl, rfl⟩

/-- C4 (amended): only the permissive variants (`src/scripts/app.js` and
the streaming handler of `src/unnamed/part_002`) enforce the
500-character cap; they fail validation at 400 with a message stating
the limit but not the index of the offending message — the error string
is the same wherever the over-long message sits. -/
theorem C4_length_cap_permissive (s : String) (hs : 500 < s.length) :
    App.validateRequest (.obj [("messages", .arr [msgUser "ok", msgUser s])]) =
      App.VResult.failure "Message content exceeds maximum length of 500 characters" 400 ∧
    P2.validateRequest (.obj [("messages", .arr [msgUser "ok", msgUser s])]) =
      P2.VResult.failure "Message content exceeds maximum length of 500 characters" 400 := by
  have hne : s ≠ "" := by
    intro h
    subst h
    simp at hs
  constructor
  · simp [App.validateRequest, App.overLong, App.MAX_MESSAGE_LENGTH, Js.getField, lookupField,
      Js.truthy, Js.lengthProp, msgUser, hne, hs]
    rfl
  · simp [P2.validateRequest, P2.overLong, P2.MAX_MESSAGE_LENGTH, Js.getField, lookupField,
      Js.truthy, Js.lengthProp, msgUser, hne, hs]
    rfl

/-- C4 witness: the length-cap theorem instantiated at the concrete
501-character content string. -/
theorem C4_witness :
    500 < longContent.length ∧
    (App.validateRequest (.obj [("messages", .arr [msgUser "ok", msgUser longContent])]) =
      App.VResult.failure "Message content exceeds maximum length of 500 characters" 400 ∧
    P2.validateRequest (.obj [("messages", .arr [msgUser "ok", msgUser longContent])]) =
      P2.VResult.failure "Message content exceeds maximum length of 500 characters" 400) :=
  ⟨by decide, C4_length_cap_permissive _ (by decide)⟩

/-- C5 counterexample: the streaming handler of `src/unnamed/part_002`
has no 100-message cap — a `POST` with 101 messages passes validation,
the upstream is contacted, and the response is a 200, refuting the claim
that every request with more than 100 messages gets a 400 with no
upstream call. -/
theorem C5_counterexample :
    (P2.handler ⟨some "POST", none,
        some (Js.obj [("messages", Js.arr (List.replicate 101 (msgUser "hi")))])⟩
        (some "k") "t" (.response 200 "" (some [[104, 105]])) noParse).upstreamCalled = true ∧
    (P2.handler ⟨some "POST", none,
        some (Js.obj [("messages", Js.arr (List.replicate 101 (msgUser "hi")))])⟩
        (some "k") "t" (.response 200 "" (some [[104, 105]])) noParse).resp.status = 200 :=
  ⟨rfl, rfl⟩

/-- C5 (amended): `src/api/chat.js` rejects both an empty `messages`
array and more than 100 messages with 400 and no upstream call; the
streaming handler of `src/unnamed/part_002` rejects the empty array the
same way but enforces no upper cap. -/
theorem C5_empty_and_cap (ct now : String) (key : Option String) (msgs : List Js)
    (fetch : FetchOutcome) (parse : String → Option Js)
    (hct : strIncludes ct "application/json" = true)
    (hk : envTruthy key = true)
    (h101 : 100 < msgs.length) :
    Chat.handler ⟨some "POST", some ct, some (Js.obj [("messages", Js.arr [])])⟩
        key now fetch parse =
      ⟨Chat.jsonResponse
        (Chat.errorBody "Invalid messages: Messages array cannot be empty") 400 [], false⟩ ∧
    Chat.handler ⟨some "POST", some ct, some (Js.obj [("messages", Js.arr msgs)])⟩
        key now fetch parse =
      ⟨Chat.jsonResponse
        (Chat.errorBody "Invalid messages: Too many messages (max 100)") 400 [], false⟩ ∧
    P2.handler ⟨some "POST", some ct, some (Js.obj [("messages", Js.arr [])])⟩
        key now fetch parse =
      ⟨P2.handleError "messages must be a non-empty array" 400 now, false⟩ := by
  refine ⟨?_, ?_, ?_⟩
  · rw [chat_handler_post ct (Js.obj [("messages", Js.arr [])]) key now fetch parse hct hk rfl]
    rfl
  · rw [chat_handler_post ct (Js.obj [("messages", Js.arr msgs)]) key now fetch parse hct hk rfl]
    have hv : (Js.obj [("messages", Js.arr msgs)]).getField "messages" = Js.arr msgs := rfl
    have h0 : (msgs.length == 0) = false := by
      have : msgs.length ≠ 0 := by omega
      simpa using this
    rw [hv]
    simp [Chat.validateMessages, h0, h101]
  · simp only [P2.handler, P2.validateRequest, Option.getD_some]
    simp [hk, strOr, Js.truthy, Js.getField, lookupField]

/-- C5 witness: the empty/cap theorem instantiated at the empty message
list and a concrete 101-message list. -/
theorem C5_witness :
    strIncludes "application/json" "application/json" = true ∧
    envTruthy (some "k") = true ∧
    100 < (List.replicate 101 (msgUser "hi")).length ∧
    (Chat.handler ⟨some "POST", some "application/json",
        some (Js.obj [("messages", Js.arr [])])⟩ (some "k") "t" (.thrown "X" "x") noParse =
      ⟨Chat.jsonResponse
        (Chat.errorBody "Invalid messages: Messages array cannot be empty") 400 [], false⟩ ∧
    Chat.handler ⟨some "POST", some "application/json",
        some (Js.obj [("messages", Js.arr (List.replicate 101 (msgUser "hi")))])⟩
        (some "k") "t" (.thrown "X" "x") noParse =
      ⟨Chat.jsonResponse
        (Chat.errorBody "Invalid messages: Too many messages (max 100)") 400 [], false⟩ ∧
    P2.handler ⟨some "POST", some "application/json",
        some (Js.obj [("messages", Js.arr [])])⟩ (some "k") "t" (.thrown "X" "x") noParse =
      ⟨P2.handleError "messages must be a non-empty array" 400 "t", false⟩) :=
  ⟨rfl, rfl, by decide,
    C5_empty_and_cap _ _ _ _ _ _ rfl rfl (by decide)⟩

/-- C6 counterexample: `src/unnamed/part_000` swallows upstream parse
errors — on a 2xx whose body text is unparseable it answers 200 with a
`null` JSON body instead of a 502, refuting the claim that an
unparseable 2xx never yields a 200 with a null body. -/
theorem C6_counterexample :
    (P0.handler ⟨some "POST", none, some (Js.obj [("messages", Js.arr [])])⟩
        (some "k") (.response 200 "not json" none) noParse).resp.status = 200 ∧
    (P0.handler ⟨some "POST", none, some (Js.obj [("messages", Js.arr [])])⟩
        (some "k") (.response 200 "not json" none) noParse).resp.body = Body.json Js.null :=
  ⟨rfl, rfl⟩

/-- C6 (amended): in `src/api/chat.js`, a 2xx upstream response whose
non-empty body text fails to parse as JSON is answered with 502 and
"Invalid response from AI service"; the unparseable payload is not
forwarded. -/
theorem C6_unparseable_2xx (ct now utext : String) (key : Option String) (b : Js)
    (status : Nat) (bs : Option (List (List Nat))) (parse : String → Option Js)
    (hct : strIncludes ct "application/json" = true)
    (hk : envTruthy key = true)
    (hnn : b.isNull = false)
    (hmsg : Chat.validateMessages (b.getField "messages") = none)
    (hmodel : Chat.validateModel (Chat.modelOf b) = true)
    (hok : httpOk status = true)
    (htext : utext ≠ "")
    (hparse : parse utext = none) :
    Chat.handler ⟨some "POST", some ct, some b⟩ key now (.response status utext bs) parse =
      ⟨Chat.jsonResponse (Chat.errorBody "Invalid response from AI service") 502 [], true⟩ := by
  rw [chat_handler_post ct b key now _ parse hct hk hnn]
  simp [hmsg, hmodel, Chat.fetchResult, htext, hparse]

/-- C6 witness: the unparseable-2xx theorem instantiated at a concrete
status-200 response with body text that no parse accepts. -/
theorem C6_witness :
    strIncludes "application/json" "application/json" = true ∧
    envTruthy (some "k") = true ∧
    (Js.obj [("messages", .arr [msgUser "hi"])]).isNull = false ∧
    Chat.validateMessages
      ((Js.obj [("messages", .arr [msgUser "hi"])]).getField "messages") = none ∧
    Chat.validateModel (Chat.modelOf (Js.obj [("messages", .arr [msgUser "hi"])])) = true ∧
    httpOk 200 = true ∧
    ("not json" : String) ≠ "" ∧
    noParse "not json" = none ∧
    Chat.handler ⟨some "POST", some "application/json",
        some (Js.obj [("messages", .arr [msgUser "hi"])])⟩ (some "k") "t"
        (.response 200 "not json" none) noParse =
      ⟨Chat.jsonResponse (Chat.errorBody "Invalid response from AI service") 502 [], true⟩ :=
  ⟨rfl, rfl, rfl, rfl, by decide, rfl, by decide, rfl,
    C6_unparseable_2xx _ _ _ _ _ _ _ _ rfl rfl rfl rfl (by decide) rfl (by decide) rfl⟩
